import Mathlib

/-!
Shallow embedding of `driver.go` from packer-builder-vsphere.

The Go driver talks to a remote vSphere endpoint through the govmomi
finder and task API.  We model that remote side as an environment of
response functions, and each driver operation as a pure Lean function
from the environment (and the operation's config) to a result together
with a chronological trace of the remote interactions it performed
(inventory lookups, task submissions, task awaits, power-state queries,
sleeps).  Errors are strings, as produced by Go's `errors.New` /
propagated `err` values.
-/

/-- Go `error` values, carried as their message strings. -/
abbrev GoError := String

/-- `types.VirtualMachinePowerState` (govmomi): the three vSphere power states. -/
inductive PowerState where
  | poweredOn
  | poweredOff
  | suspended
deriving DecidableEq, Repr

/-- A managed object reference (opaque remote handle: VM, folder, pool,
datastore, snapshot). -/
structure MoRef where
  value : String
deriving DecidableEq, Repr

/-- A remote task handle, as returned by every mutating govmomi call. -/
structure TaskRef where
  value : String
deriving DecidableEq, Repr

/-- `types.VirtualMachineRelocateSpec`: the placement part of a clone
specification.  Zero values mirror the Go zero value of the struct. -/
structure VirtualMachineRelocateSpec where
  Pool : Option MoRef := none
  Datastore : Option MoRef := none
  DiskMoveType : String := ""
deriving DecidableEq, Repr

/-- `types.VirtualMachineCloneSpec` as used by `CloneVM`. -/
structure VirtualMachineCloneSpec where
  Location : VirtualMachineRelocateSpec := {}
  PowerOn : Bool := false
  Snapshot : Option MoRef := none
deriving DecidableEq, Repr

/-- `types.VirtualMachineSnapshotInfo`: the `snapshot` property fetched from a
template; only `CurrentSnapshot` is read by the driver. -/
structure VirtualMachineSnapshotInfo where
  CurrentSnapshot : Option MoRef := none
deriving DecidableEq, Repr

/-- `types.ResourceAllocationInfo` as used by `ConfigureVM`. -/
structure ResourceAllocationInfo where
  Reservation : Int := 0
  Limit : Int := 0
deriving DecidableEq, Repr

/-- `types.VirtualMachineConfigSpec` as used by `ConfigureVM`. -/
structure VirtualMachineConfigSpec where
  NumCPUs : Int := 0
  MemoryMB : Int := 0
  CpuAllocation : Option ResourceAllocationInfo := none
  MemoryAllocation : Option ResourceAllocationInfo := none
  MemoryReservationLockedToMax : Option Bool := none
deriving DecidableEq, Repr

/-- `CloneConfig`: the clone parameters consumed by `Driver.CloneVM`
(fields exactly as dereferenced in `driver.go`). -/
structure CloneConfig where
  Template : String
  VMName : String
  Folder : String
  Host : String
  ResourcePool : String
  Datastore : String
  LinkedClone : Bool
deriving DecidableEq, Repr

/-- `HardwareConfig`: the hardware parameters consumed by
`Driver.ConfigureVM` (fields exactly as dereferenced in `driver.go`). -/
structure HardwareConfig where
  CPUs : Int
  RAM : Int
  CPUReservation : Int
  CPULimit : Int
  RAMReservation : Int
  RAMReserveAll : Bool
deriving DecidableEq, Repr

/-- One remote interaction performed by a driver operation, in
chronological order of the trace. -/
inductive Event where
  | findVM (path : String)
  | findFolder (path : String)
  | findPool (path : String)
  | findDatastore (name : String)
  | fetchSnapshotProps
  | submitClone (name : String) (spec : VirtualMachineCloneSpec) (t : TaskRef)
  | submitDestroy (t : TaskRef)
  | submitReconfigure (spec : VirtualMachineConfigSpec) (t : TaskRef)
  | submitPowerOn (t : TaskRef)
  | submitPowerOff (t : TaskRef)
  | submitCreateSnapshot (nm desc : String) (memory quiesce : Bool) (t : TaskRef)
  | awaitTask (t : TaskRef)
  | queryPowerState
deriving DecidableEq, Repr

/-- The task submitted by an event, if the event is a (successful) task
submission. -/
def Event.taskOf : Event → Option TaskRef
  | .submitClone _ _ t => some t
  | .submitDestroy t => some t
  | .submitReconfigure _ t => some t
  | .submitPowerOn t => some t
  | .submitPowerOff t => some t
  | .submitCreateSnapshot _ _ _ _ t => some t
  | _ => none

/-- The tasks submitted in a trace, in order. -/
def submittedTasks (es : List Event) : List TaskRef :=
  es.filterMap Event.taskOf

/-- Every task submitted in the trace is also awaited in the trace:
the operation never returned with a submitted task still unawaited. -/
def tasksAwaited (es : List Event) : Prop :=
  ∀ e ∈ es, ∀ t, Event.taskOf e = some t → Event.awaitTask t ∈ es

/-- The remote environment seen by `CloneVM`: the datacenter name the
finder is scoped to, and the responses of the finder / property /
task calls it makes.  `findFolderOrDefault` and `findPoolOrDefault`
model govmomi's `FolderOrDefault` / `ResourcePoolOrDefault`: a lookup by
inventory path, where the path `""` denotes the provider's default
object for the datacenter. -/
structure CloneEnv where
  dcName : String
  findVM : String → Except GoError MoRef
  findFolderOrDefault : String → Except GoError MoRef
  findPoolOrDefault : String → Except GoError MoRef
  findDatastore : String → Except GoError MoRef
  snapshotProps : MoRef → Except GoError (Option VirtualMachineSnapshotInfo)
  clone : MoRef → MoRef → String → VirtualMachineCloneSpec → Except GoError TaskRef
  awaitTaskResult : TaskRef → Except GoError MoRef

/-- The folder lookup path built by `CloneVM`:
`fmt.Sprintf("/%v/vm/%v", d.datacenter.Name(), config.Folder)`. -/
def folderLookupPath (dcName : String) (config : CloneConfig) : String :=
  "/" ++ dcName ++ "/vm/" ++ config.Folder

/-- The resource-pool lookup path used by `CloneVM`: when
`config.ResourcePool != ""` the composed path
`fmt.Sprintf("/%v/host/%v/Resources/%v", dc, config.Host, config.ResourcePool)`,
otherwise `""` (which `ResourcePoolOrDefault` resolves to the
datacenter's default pool). -/
def poolLookupPath (dcName : String) (config : CloneConfig) : String :=
  if config.ResourcePool ≠ "" then
    "/" ++ dcName ++ "/host/" ++ config.Host ++ "/Resources/" ++ config.ResourcePool
  else ""

/-- Error built by `CloneVM` when `linked_clone=true` and the template's
`snapshot` property is nil. -/
def noSnapshotsMsg : GoError := "`linked_clone=true`, but template has no snapshots"

/-- Tail of `CloneVM`: `template.Clone(ctx, folder, config.VMName, cloneSpec)`
followed by `task.WaitForResult`; on success the task's result reference is
wrapped as the new machine handle. -/
def cloneSubmit (env : CloneEnv) (config : CloneConfig) (template folder : MoRef)
    (cloneSpec : VirtualMachineCloneSpec) (ev : List Event) :
    Except GoError MoRef × List Event :=
  match env.clone template folder config.VMName cloneSpec with
  | .error e => (.error e, ev)
  | .ok task =>
    let ev1 := ev ++ [Event.submitClone config.VMName cloneSpec task, Event.awaitTask task]
    match env.awaitTaskResult task with
    | .error e => (.error e, ev1)
    | .ok vmRef => (.ok vmRef, ev1)

/-- The `if config.LinkedClone == true` branch of `CloneVM`: set
`DiskMoveType` to `createNewChildDiskBacking`, fetch the template's
`snapshot` property, fail if it is nil, otherwise take
`tpl.Snapshot.CurrentSnapshot` as the clone's base snapshot. -/
def cloneLinked (env : CloneEnv) (config : CloneConfig) (template folder : MoRef)
    (cloneSpec : VirtualMachineCloneSpec) (ev : List Event) :
    Except GoError MoRef × List Event :=
  if config.LinkedClone = true then
    let spec1 := { cloneSpec with
      Location := { cloneSpec.Location with DiskMoveType := "createNewChildDiskBacking" } }
    let ev1 := ev ++ [Event.fetchSnapshotProps]
    match env.snapshotProps template with
    | .error e => (.error e, ev1)
    | .ok none => (.error noSnapshotsMsg, ev1)
    | .ok (some snapInfo) =>
      cloneSubmit env config template folder
        { spec1 with Snapshot := snapInfo.CurrentSnapshot } ev1
  else
    cloneSubmit env config template folder cloneSpec ev

/-- The datastore step of `CloneVM`: when `config.Datastore != ""`, resolve
it and record it in the relocate spec; then build the clone spec with
`PowerOn = false` wrapping the placement. -/
def cloneDatastore (env : CloneEnv) (config : CloneConfig) (template folder : MoRef)
    (relocateSpec : VirtualMachineRelocateSpec) (ev : List Event) :
    Except GoError MoRef × List Event :=
  if config.Datastore ≠ "" then
    let ev1 := ev ++ [Event.findDatastore config.Datastore]
    match env.findDatastore config.Datastore with
    | .error e => (.error e, ev1)
    | .ok ds =>
      cloneLinked env config template folder
        { Location := { relocateSpec with Datastore := some ds }, PowerOn := false } ev1
  else
    cloneLinked env config template folder
      { Location := relocateSpec, PowerOn := false } ev

/-- `Driver.CloneVM`: resolve template, folder, resource pool (composed path
or provider default), optional datastore; build the relocate and clone
specs; handle the linked-clone branch; submit the clone task and await its
result. -/
def CloneVM (env : CloneEnv) (config : CloneConfig) :
    Except GoError MoRef × List Event :=
  match env.findVM config.Template with
  | .error e => (.error e, [Event.findVM config.Template])
  | .ok template =>
    match env.findFolderOrDefault (folderLookupPath env.dcName config) with
    | .error e =>
      (.error e, [Event.findVM config.Template,
        Event.findFolder (folderLookupPath env.dcName config)])
    | .ok folder =>
      match env.findPoolOrDefault (poolLookupPath env.dcName config) with
      | .error e =>
        (.error e, [Event.findVM config.Template,
          Event.findFolder (folderLookupPath env.dcName config),
          Event.findPool (poolLookupPath env.dcName config)])
      | .ok pool =>
        cloneDatastore env config template folder { Pool := some pool }
          [Event.findVM config.Template,
           Event.findFolder (folderLookupPath env.dcName config),
           Event.findPool (poolLookupPath env.dcName config)]

/-- The remote environment seen by the per-VM lifecycle operations of the
driver: the power-state query, the task-submitting calls and the task
await, all against one fixed virtual machine. -/
structure VMEnv where
  powerState : Except GoError PowerState
  destroyTask : Except GoError TaskRef
  reconfigureTask : VirtualMachineConfigSpec → Except GoError TaskRef
  powerOnTask : Except GoError TaskRef
  powerOffTask : Except GoError TaskRef
  createSnapshotTask : String → String → Bool → Bool → Except GoError TaskRef
  awaitTask : TaskRef → Except GoError Unit

/-- `Driver.DestroyVM`: submit `vm.Destroy`, await the task. -/
def DestroyVM (env : VMEnv) : Except GoError Unit × List Event :=
  match env.destroyTask with
  | .error e => (.error e, [])
  | .ok task => (env.awaitTask task, [Event.submitDestroy task, Event.awaitTask task])

/-- The `types.VirtualMachineConfigSpec` built by `Driver.ConfigureVM`:
CPU count, RAM (MB), CPU reservation and limit, RAM reservation, and the
lock-RAM-reservation-to-max flag, all in one spec. -/
def configSpecOf (config : HardwareConfig) : VirtualMachineConfigSpec :=
  { NumCPUs := config.CPUs
    MemoryMB := config.RAM
    CpuAllocation := some { Reservation := config.CPUReservation, Limit := config.CPULimit }
    MemoryAllocation := some { Reservation := config.RAMReservation, Limit := 0 }
    MemoryReservationLockedToMax := some config.RAMReserveAll }

/-- `Driver.ConfigureVM`: build the combined config spec, submit a single
`vm.Reconfigure` task, await it. -/
def ConfigureVM (env : VMEnv) (config : HardwareConfig) :
    Except GoError Unit × List Event :=
  match env.reconfigureTask (configSpecOf config) with
  | .error e => (.error e, [])
  | .ok task =>
    (env.awaitTask task, [Event.submitReconfigure (configSpecOf config) task, Event.awaitTask task])

/-- `Driver.PowerOn`: submit `vm.PowerOn`, await the task. -/
def PowerOn (env : VMEnv) : Except GoError Unit × List Event :=
  match env.powerOnTask with
  | .error e => (.error e, [])
  | .ok task => (env.awaitTask task, [Event.submitPowerOn task, Event.awaitTask task])

/-- `Driver.PowerOff`: query the power state; if it is `poweredOff`, return
success with no task; otherwise submit `vm.PowerOff` and await it. -/
def PowerOff (env : VMEnv) : Except GoError Unit × List Event :=
  match env.powerState with
  | .error e => (.error e, [Event.queryPowerState])
  | .ok state =>
    if state = PowerState.poweredOff then (.ok (), [Event.queryPowerState])
    else
      match env.powerOffTask with
      | .error e => (.error e, [Event.queryPowerState])
      | .ok task =>
        (env.awaitTask task,
         [Event.queryPowerState, Event.submitPowerOff task, Event.awaitTask task])

/-- `Driver.CreateSnapshot`: submit
`vm.CreateSnapshot(ctx, "Created by Packer", "", false, false)`, await it. -/
def CreateSnapshot (env : VMEnv) : Except GoError Unit × List Event :=
  match env.createSnapshotTask "Created by Packer" "" false false with
  | .error e => (.error e, [])
  | .ok task =>
    (env.awaitTask task,
     [Event.submitCreateSnapshot "Created by Packer" "" false false task, Event.awaitTask task])

/-- One interaction of the shutdown polling loop: a power-state poll at
logical time `t` (seconds of sleep elapsed since entry), or a sleep of
`d` time units. -/
inductive WEvent where
  | poll (t : Nat)
  | sleep (d : Nat)
deriving DecidableEq, Repr

/-- Error built by `WaitForShutdown` when the timer fires. -/
def timeoutMsg : GoError := "Timeout while waiting for machine to shut down."

/-- The polling loop of `Driver.WaitForShutdown`, with time in abstract
units (the Go code sleeps 1 second per iteration, so the elapsed time at
iteration `t` is `t` units).  `query t` is the result of `vm.PowerState`
at elapsed time `t`.  Each iteration: query the power state (a failing
query aborts with its error); break with success on `poweredOff`;
otherwise, if the `time.After(timeout)` timer has fired (elapsed ≥
timeout), return the timeout error; otherwise sleep 1 unit and re-poll. -/
def waitLoop (query : Nat → Except GoError PowerState) (timeout t : Nat) :
    Except GoError Unit × List WEvent :=
  match query t with
  | .error e => (.error e, [WEvent.poll t])
  | .ok ps =>
    if ps = PowerState.poweredOff then (.ok (), [WEvent.poll t])
    else if h : timeout ≤ t then (.error timeoutMsg, [WEvent.poll t])
    else
      let r := waitLoop query timeout (t + 1)
      (r.1, WEvent.poll t :: WEvent.sleep 1 :: r.2)
termination_by timeout - t
decreasing_by omega

/-- `Driver.WaitForShutdown`: enter the polling loop at elapsed time 0
with deadline `timeout`. -/
def WaitForShutdown (query : Nat → Except GoError PowerState) (timeout : Nat) :
    Except GoError Unit × List WEvent :=
  waitLoop query timeout 0

/-- Total time slept in a shutdown-wait trace (the elapsed waiting time
at the moment the loop returned). -/
def sleepSum : List WEvent → Nat
  | [] => 0
  | WEvent.sleep d :: es => d + sleepSum es
  | _ :: es => sleepSum es

/-! ### Concrete sample environments and inputs -/

/-- Snapshot metadata of a template whose snapshot chain is S1 → S2, with
S2 current. -/
def sampleSnapInfo : VirtualMachineSnapshotInfo := { CurrentSnapshot := some ⟨"snapshot-2"⟩ }

/-- A clone environment where every remote call succeeds and the template
has a current snapshot. -/
def sampleCloneEnv : CloneEnv where
  dcName := "dc1"
  findVM := fun _ => .ok ⟨"vm-template"⟩
  findFolderOrDefault := fun _ => .ok ⟨"folder-1"⟩
  findPoolOrDefault := fun _ => .ok ⟨"pool-1"⟩
  findDatastore := fun _ => .ok ⟨"datastore-1"⟩
  snapshotProps := fun _ => .ok (some sampleSnapInfo)
  clone := fun _ _ _ _ => .ok ⟨"task-1"⟩
  awaitTaskResult := fun _ => .ok ⟨"vm-new"⟩

/-- Like `sampleCloneEnv`, but the template has no snapshots (`snapshot`
property is nil). -/
def sampleNoSnapEnv : CloneEnv :=
  { sampleCloneEnv with snapshotProps := fun _ => .ok none }

/-- A linked-clone configuration naming a host, a pool and no datastore. -/
def sampleCloneConfig : CloneConfig where
  Template := "tpl1"
  VMName := "vm1"
  Folder := ""
  Host := "esx1"
  ResourcePool := "pool"
  Datastore := ""
  LinkedClone := true

/-- A per-VM environment for a powered-on machine where every call
succeeds. -/
def sampleVMEnv : VMEnv where
  powerState := .ok PowerState.poweredOn
  destroyTask := .ok ⟨"task-destroy"⟩
  reconfigureTask := fun _ => .ok ⟨"task-reconfigure"⟩
  powerOnTask := .ok ⟨"task-poweron"⟩
  powerOffTask := .ok ⟨"task-poweroff"⟩
  createSnapshotTask := fun _ _ _ _ => .ok ⟨"task-snapshot"⟩
  awaitTask := fun _ => .ok ()

/-- A sample hardware configuration. -/
def sampleHardwareConfig : HardwareConfig where
  CPUs := 2
  RAM := 4096
  CPUReservation := 1000
  CPULimit := 2000
  RAMReservation := 512
  RAMReserveAll := false

/-- A power-state history that reports `poweredOn` for the first two polls
and `poweredOff` from then on. -/
def queryFlip2 : Nat → Except GoError PowerState :=
  fun t => if t < 2 then .ok PowerState.poweredOn else .ok PowerState.poweredOff

/-- A power-state history stuck at `poweredOn`. -/
def queryStuckOn : Nat → Except GoError PowerState :=
  fun _ => .ok PowerState.poweredOn

/-- A power-state history whose query fails at the second poll. -/
def queryFailAt1 : Nat → Except GoError PowerState :=
  fun t => if t = 0 then .ok PowerState.poweredOn else .error "connection reset"

/-! ### Unfolding lemmas for the shutdown polling loop -/

lemma waitLoop_query_error (query : Nat → Except GoError PowerState) (timeout t : Nat)
    (e : GoError) (h : query t = .error e) :
    waitLoop query timeout t = (.error e, [WEvent.poll t]) := by
  rw [waitLoop, h]

lemma waitLoop_off (query : Nat → Except GoError PowerState) (timeout t : Nat)
    (h : query t = .ok PowerState.poweredOff) :
    waitLoop query timeout t = (.ok (), [WEvent.poll t]) := by
  rw [waitLoop, h]
  simp

lemma waitLoop_deadline (query : Nat → Except GoError PowerState) (timeout t : Nat)
    (s : PowerState) (h : query t = .ok s) (hs : s ≠ PowerState.poweredOff)
    (ht : timeout ≤ t) :
    waitLoop query timeout t = (.error timeoutMsg, [WEvent.poll t]) := by
  rw [waitLoop, h]
  simp [hs, ht]

lemma waitLoop_step (query : Nat → Except GoError PowerState) (timeout t : Nat)
    (s : PowerState) (h : query t = .ok s) (hs : s ≠ PowerState.poweredOff)
    (ht : t < timeout) :
    waitLoop query timeout t =
      ((waitLoop query timeout (t + 1)).1,
        WEvent.poll t :: WEvent.sleep 1 :: (waitLoop query timeout (t + 1)).2) := by
  rw [waitLoop, h]
  simp [hs, Nat.not_le.mpr ht]

lemma waitLoop_ok_of_first_off :
    ∀ (d : Nat) (query : Nat → Except GoError PowerState) (timeout t k : Nat),
      k = t + d → k ≤ timeout →
      (∀ j, t ≤ j → j < k → ∃ s, query j = .ok s ∧ s ≠ PowerState.poweredOff) →
      query k = .ok PowerState.poweredOff →
      (waitLoop query timeout t).1 = .ok () := by
  intro d
  induction d with
  | zero =>
    intro query timeout t k hk _ _ hoff
    subst hk
    rw [waitLoop_off query timeout k hoff]
  | succ d ih =>
    intro query timeout t k hk hkt hpre hoff
    obtain ⟨s, hs, hneq⟩ := hpre t le_rfl (by omega)
    rw [waitLoop_step query timeout t s hs hneq (by omega)]
    exact ih query timeout (t + 1) k (by omega) hkt
      (fun j hj1 hj2 => hpre j (by omega) hj2) hoff

lemma waitLoop_timeout_of_never_off :
    ∀ (d : Nat) (query : Nat → Except GoError PowerState) (timeout t : Nat),
      timeout = t + d →
      (∀ j, t ≤ j → j ≤ timeout → ∃ s, query j = .ok s ∧ s ≠ PowerState.poweredOff) →
      (waitLoop query timeout t).1 = .error timeoutMsg ∧
        sleepSum (waitLoop query timeout t).2 = timeout - t := by
  intro d
  induction d with
  | zero =>
    intro query timeout t hk hpre
    obtain ⟨s, hs, hneq⟩ := hpre t le_rfl (by omega)
    rw [waitLoop_deadline query timeout t s hs hneq (by omega)]
    refine ⟨rfl, ?_⟩
    simp [sleepSum]
    omega
  | succ d ih =>
    intro query timeout t hk hpre
    obtain ⟨s, hs, hneq⟩ := hpre t le_rfl (by omega)
    rw [waitLoop_step query timeout t s hs hneq (by omega)]
    obtain ⟨h1, h2⟩ := ih query timeout (t + 1) (by omega)
      (fun j hj1 hj2 => hpre j (by omega) hj2)
    refine ⟨h1, ?_⟩
    simp [sleepSum, h2]
    omega

lemma waitLoop_sleep_one :
    ∀ (n : Nat) (query : Nat → Except GoError PowerState) (timeout t : Nat),
      timeout - t ≤ n →
      ∀ d, WEvent.sleep d ∈ (waitLoop query timeout t).2 → d = 1 := by
  intro n
  induction n with
  | zero =>
    intro query timeout t hn d hd
    cases hq : query t with
    | error e =>
      rw [waitLoop_query_error query timeout t e hq] at hd
      simp at hd
    | ok s =>
      by_cases hs : s = PowerState.poweredOff
      · subst hs
        rw [waitLoop_off query timeout t hq] at hd
        simp at hd
      · rw [waitLoop_deadline query timeout t s hq hs (by omega)] at hd
        simp at hd
  | succ n ih =>
    intro query timeout t hn d hd
    cases hq : query t with
    | error e =>
      rw [waitLoop_query_error query timeout t e hq] at hd
      simp at hd
    | ok s =>
      by_cases hs : s = PowerState.poweredOff
      · subst hs
        rw [waitLoop_off query timeout t hq] at hd
        simp at hd
      · by_cases ht : timeout ≤ t
        · rw [waitLoop_deadline query timeout t s hq hs ht] at hd
          simp at hd
        · rw [waitLoop_step query timeout t s hq hs (by omega)] at hd
          simp at hd
          rcases hd with hd | hd
          · exact hd
          · exact ih query timeout (t + 1) (by omega) d hd

lemma waitLoop_error_at :
    ∀ (d : Nat) (query : Nat → Except GoError PowerState) (timeout t k : Nat) (e : GoError),
      k = t + d → k ≤ timeout →
      (∀ j, t ≤ j → j < k → ∃ s, query j = .ok s ∧ s ≠ PowerState.poweredOff) →
      query k = .error e →
      (waitLoop query timeout t).1 = .error e ∧
        ∀ u, WEvent.poll u ∈ (waitLoop query timeout t).2 → u ≤ k := by
  intro d
  induction d with
  | zero =>
    intro query timeout t k e hk _ _ herr
    subst hk
    rw [waitLoop_query_error query timeout k e herr]
    refine ⟨rfl, ?_⟩
    intro u hu
    simp at hu
    omega
  | succ d ih =>
    intro query timeout t k e hk hkt hpre herr
    obtain ⟨s, hs, hneq⟩ := hpre t le_rfl (by omega)
    rw [waitLoop_step query timeout t s hs hneq (by omega)]
    obtain ⟨h1, h2⟩ := ih query timeout (t + 1) k e (by omega) hkt
      (fun j hj1 hj2 => hpre j (by omega) hj2) herr
    refine ⟨h1, ?_⟩
    intro u hu
    simp at hu
    rcases hu with hu | hu
    · omega
    · exact h2 u hu

/-- A power-state history that reports `poweredOff` immediately. -/
def queryOffNow : Nat → Except GoError PowerState :=
  fun _ => .ok PowerState.poweredOff

/-- C2: `WaitForShutdown` polls the power state each iteration; it returns
success as soon as a poll reports `poweredOff`; when the state never
becomes `poweredOff` it returns the error "Timeout while waiting for
machine to shut down." only once the total slept time equals the timeout
(the deadline has elapsed, never before); and every sleep between polls is
exactly 1 time unit. -/
theorem WaitForShutdown_polling_spec (query : Nat → Except GoError PowerState)
    (timeout : Nat) :
    (∀ k, k ≤ timeout →
      (∀ j, j < k → ∃ s, query j = .ok s ∧ s ≠ PowerState.poweredOff) →
      query k = .ok PowerState.poweredOff →
      (WaitForShutdown query timeout).1 = .ok ())
    ∧ ((∀ j, j ≤ timeout → ∃ s, query j = .ok s ∧ s ≠ PowerState.poweredOff) →
      (WaitForShutdown query timeout).1 = .error timeoutMsg ∧
        sleepSum (WaitForShutdown query timeout).2 = timeout)
    ∧ (∀ d, WEvent.sleep d ∈ (WaitForShutdown query timeout).2 → d = 1) := by
  refine ⟨?_, ?_, ?_⟩
  · intro k hk hpre hoff
    exact waitLoop_ok_of_first_off k query timeout 0 k (by omega) hk
      (fun j _ hj => hpre j hj) hoff
  · intro hpre
    have h := waitLoop_timeout_of_never_off timeout query timeout 0 (by omega)
      (fun j _ hj => hpre j hj)
    simpa using h
  · intro d hd
    exact waitLoop_sleep_one timeout query timeout 0 (by omega) d hd

/-- Witness for C2: with timeout 3 and a power state that flips to
`poweredOff` after 2 polling intervals the wait succeeds; with a state
stuck at `poweredOn` it returns the timeout error. -/
theorem WaitForShutdown_polling_spec_witness :
    (WaitForShutdown queryFlip2 3).1 = .ok () ∧
    (WaitForShutdown queryStuckOn 3).1 = .error timeoutMsg := by
  constructor
  · exact (WaitForShutdown_polling_spec queryFlip2 3).1 2 (by omega)
      (fun j hj => ⟨PowerState.poweredOn, by simp [queryFlip2, hj], by decide⟩) rfl
  · exact ((WaitForShutdown_polling_spec queryStuckOn 3).2.1
      (fun j hj => ⟨PowerState.poweredOn, rfl, by decide⟩)).1

/-- C9: if a power-state query inside `WaitForShutdown` fails (at the
first poll not reporting a running-state value), the wait returns that
query error immediately and performs no further polls. -/
theorem WaitForShutdown_query_error_aborts (query : Nat → Except GoError PowerState)
    (timeout k : Nat) (e : GoError)
    (hk : k ≤ timeout)
    (hpre : ∀ j, j < k → ∃ s, query j = .ok s ∧ s ≠ PowerState.poweredOff)
    (herr : query k = .error e) :
    (WaitForShutdown query timeout).1 = .error e ∧
      ∀ u, WEvent.poll u ∈ (WaitForShutdown query timeout).2 → u ≤ k :=
  waitLoop_error_at k query timeout 0 k e (by omega) hk
    (fun j _ hj => hpre j hj) herr

/-- Witness for C9: a query failing at the second poll aborts the wait
with "connection reset" and polls no later instant. -/
theorem WaitForShutdown_query_error_aborts_witness :
    (WaitForShutdown queryFailAt1 3).1 = .error "connection reset" ∧
      ∀ u, WEvent.poll u ∈ (WaitForShutdown queryFailAt1 3).2 → u ≤ 1 :=
  WaitForShutdown_query_error_aborts queryFailAt1 3 1 "connection reset" (by omega)
    (fun j hj => ⟨PowerState.poweredOn, by
      have hj0 : j = 0 := by omega
      subst hj0
      rfl, by decide⟩) rfl

/-- C10: when the very first power-state poll reports `poweredOff`,
`WaitForShutdown` returns success whatever the timeout (including 0),
with a single poll and no sleep: the state is checked before the
deadline on every iteration. -/
theorem WaitForShutdown_first_poll_off (query : Nat → Except GoError PowerState)
    (timeout : Nat) (h : query 0 = .ok PowerState.poweredOff) :
    (WaitForShutdown query timeout).1 = .ok () ∧
      (WaitForShutdown query timeout).2 = [WEvent.poll 0] := by
  have h0 := waitLoop_off query timeout 0 h
  exact ⟨by simp [WaitForShutdown, h0], by simp [WaitForShutdown, h0]⟩

/-- Witness for C10: an immediately-off machine with timeout 0 still
succeeds. -/
theorem WaitForShutdown_first_poll_off_witness :
    (WaitForShutdown queryOffNow 0).1 = .ok () ∧
      (WaitForShutdown queryOffNow 0).2 = [WEvent.poll 0] :=
  WaitForShutdown_first_poll_off queryOffNow 0 rfl

/-! ### Trace-shape lemmas for the clone pipeline -/

lemma cloneSubmit_trace_shape (env : CloneEnv) (config : CloneConfig)
    (template folder : MoRef) (spec : VirtualMachineCloneSpec) (ev : List Event) :
    ∃ tail, (cloneSubmit env config template folder spec ev).2 = ev ++ tail ∧
      ∀ p, Event.findPool p ∉ tail := by
  unfold cloneSubmit
  split
  · exact ⟨[], by simp⟩
  · rename_i task heq
    split <;>
      exact ⟨[Event.submitClone config.VMName spec task, Event.awaitTask task],
        by simp, fun p => by simp⟩

lemma cloneLinked_trace_shape (env : CloneEnv) (config : CloneConfig)
    (template folder : MoRef) (spec : VirtualMachineCloneSpec) (ev : List Event) :
    ∃ tail, (cloneLinked env config template folder spec ev).2 = ev ++ tail ∧
      ∀ p, Event.findPool p ∉ tail := by
  unfold cloneLinked
  split
  · split
    · exact ⟨[Event.fetchSnapshotProps], by simp, by intro p; simp⟩
    · exact ⟨[Event.fetchSnapshotProps], by simp, by intro p; simp⟩
    · obtain ⟨tail, htail, hp⟩ := cloneSubmit_trace_shape env config template folder _
        (ev ++ [Event.fetchSnapshotProps])
      refine ⟨[Event.fetchSnapshotProps] ++ tail, ?_, ?_⟩
      · rw [htail]
        simp
      · intro p
        simp [hp p]
  · exact cloneSubmit_trace_shape env config template folder spec ev

lemma cloneDatastore_trace_shape (env : CloneEnv) (config : CloneConfig)
    (template folder : MoRef) (relocateSpec : VirtualMachineRelocateSpec) (ev : List Event) :
    ∃ tail, (cloneDatastore env config template folder relocateSpec ev).2 = ev ++ tail ∧
      ∀ p, Event.findPool p ∉ tail := by
  unfold cloneDatastore
  split
  · split
    · exact ⟨[Event.findDatastore config.Datastore], by simp, by intro p; simp⟩
    · obtain ⟨tail, htail, hp⟩ := cloneLinked_trace_shape env config template folder _
        (ev ++ [Event.findDatastore config.Datastore])
      refine ⟨[Event.findDatastore config.Datastore] ++ tail, ?_, ?_⟩
      · rw [htail]
        simp
      · intro p
        simp [hp p]
  · exact cloneLinked_trace_shape env config template folder _ ev

/-! ### Which clone specification reaches the submission -/

lemma cloneSubmit_submitClone_mem (env : CloneEnv) (config : CloneConfig)
    (template folder : MoRef) (spec : VirtualMachineCloneSpec) (ev : List Event)
    (nm : String) (spec2 : VirtualMachineCloneSpec) (tk : TaskRef)
    (h : Event.submitClone nm spec2 tk ∈ (cloneSubmit env config template folder spec ev).2) :
    Event.submitClone nm spec2 tk ∈ ev ∨ (nm = config.VMName ∧ spec2 = spec) := by
  unfold cloneSubmit at h
  split at h
  · exact Or.inl h
  · split at h <;>
    · simp at h
      rcases h with h | ⟨h1, h2, h3⟩
      · exact Or.inl h
      · exact Or.inr ⟨h1, h2⟩

lemma cloneLinked_submitClone_mem (env : CloneEnv) (config : CloneConfig)
    (template folder : MoRef) (spec : VirtualMachineCloneSpec) (ev : List Event)
    (info : VirtualMachineSnapshotInfo)
    (hlc : config.LinkedClone = true)
    (hsnap : env.snapshotProps template = .ok (some info))
    (nm : String) (spec2 : VirtualMachineCloneSpec) (tk : TaskRef)
    (h : Event.submitClone nm spec2 tk ∈ (cloneLinked env config template folder spec ev).2) :
    Event.submitClone nm spec2 tk ∈ ev ∨
      (nm = config.VMName ∧ spec2 = { spec with
        Location := { spec.Location with DiskMoveType := "createNewChildDiskBacking" },
        Snapshot := info.CurrentSnapshot }) := by
  unfold cloneLinked at h
  rw [if_pos hlc] at h
  simp only [hsnap] at h
  have h2 := cloneSubmit_submitClone_mem env config template folder _ _ nm spec2 tk h
  rcases h2 with h2 | h2
  · exact Or.inl (by simpa using h2)
  · exact Or.inr h2

lemma cloneLinked_submitClone_powerOn (env : CloneEnv) (config : CloneConfig)
    (template folder : MoRef) (spec : VirtualMachineCloneSpec) (ev : List Event)
    (nm : String) (spec2 : VirtualMachineCloneSpec) (tk : TaskRef)
    (h : Event.submitClone nm spec2 tk ∈ (cloneLinked env config template folder spec ev).2) :
    Event.submitClone nm spec2 tk ∈ ev ∨ spec2.PowerOn = spec.PowerOn := by
  unfold cloneLinked at h
  split at h
  · split at h
    · exact Or.inl (by simpa using h)
    · exact Or.inl (by simpa using h)
    · have h2 := cloneSubmit_submitClone_mem env config template folder _ _ nm spec2 tk h
      rcases h2 with h2 | ⟨h1, h2⟩
      · exact Or.inl (by simpa using h2)
      · subst h2
        exact Or.inr rfl
  · have h2 := cloneSubmit_submitClone_mem env config template folder _ _ nm spec2 tk h
    rcases h2 with h2 | ⟨h1, h2⟩
    · exact Or.inl h2
    · subst h2
      exact Or.inr rfl

lemma cloneDatastore_submitClone_powerOn (env : CloneEnv) (config : CloneConfig)
    (template folder : MoRef) (relocateSpec : VirtualMachineRelocateSpec) (ev : List Event)
    (nm : String) (spec2 : VirtualMachineCloneSpec) (tk : TaskRef)
    (h : Event.submitClone nm spec2 tk ∈
      (cloneDatastore env config template folder relocateSpec ev).2) :
    Event.submitClone nm spec2 tk ∈ ev ∨ spec2.PowerOn = false := by
  unfold cloneDatastore at h
  split at h
  · split at h
    · exact Or.inl (by simpa using h)
    · have h2 := cloneLinked_submitClone_powerOn env config template folder _ _ nm spec2 tk h
      rcases h2 with h2 | h2
      · exact Or.inl (by simpa using h2)
      · exact Or.inr h2
  · have h2 := cloneLinked_submitClone_powerOn env config template folder _ _ nm spec2 tk h
    rcases h2 with h2 | h2
    · exact Or.inl h2
    · exact Or.inr h2

/-! ### Every submitted task is awaited -/

lemma cloneSubmit_tasksAwaited (env : CloneEnv) (config : CloneConfig)
    (template folder : MoRef) (spec : VirtualMachineCloneSpec) (ev : List Event)
    (hev : ∀ e ∈ ev, Event.taskOf e = none) :
    tasksAwaited (cloneSubmit env config template folder spec ev).2 := by
  unfold cloneSubmit
  split
  · intro e he t ht
    rw [hev e he] at ht
    cases ht
  · rename_i task heq
    split <;>
    · intro e he t ht
      simp at he
      rcases he with he | he | he
      · rw [hev e he] at ht
        cases ht
      · subst he
        simp [Event.taskOf] at ht
        subst ht
        simp
      · subst he
        simp [Event.taskOf] at ht

lemma cloneLinked_tasksAwaited (env : CloneEnv) (config : CloneConfig)
    (template folder : MoRef) (spec : VirtualMachineCloneSpec) (ev : List Event)
    (hev : ∀ e ∈ ev, Event.taskOf e = none) :
    tasksAwaited (cloneLinked env config template folder spec ev).2 := by
  unfold cloneLinked
  have hev1 : ∀ e ∈ ev ++ [Event.fetchSnapshotProps], Event.taskOf e = none := by
    intro e he
    simp at he
    rcases he with he | he
    · exact hev e he
    · subst he
      rfl
  split
  · split
    · intro e he t ht
      rw [hev1 e he] at ht
      cases ht
    · intro e he t ht
      rw [hev1 e he] at ht
      cases ht
    · exact cloneSubmit_tasksAwaited env config template folder _ _ hev1
  · exact cloneSubmit_tasksAwaited env config template folder _ _ hev

lemma cloneDatastore_tasksAwaited (env : CloneEnv) (config : CloneConfig)
    (template folder : MoRef) (relocateSpec : VirtualMachineRelocateSpec) (ev : List Event)
    (hev : ∀ e ∈ ev, Event.taskOf e = none) :
    tasksAwaited (cloneDatastore env config template folder relocateSpec ev).2 := by
  unfold cloneDatastore
  have hev1 : ∀ e ∈ ev ++ [Event.findDatastore config.Datastore], Event.taskOf e = none := by
    intro e he
    simp at he
    rcases he with he | he
    · exact hev e he
    · subst he
      rfl
  split
  · split
    · intro e he t ht
      rw [hev1 e he] at ht
      cases ht
    · exact cloneLinked_tasksAwaited env config template folder _ _ hev1
  · exact cloneLinked_tasksAwaited env config template folder _ _ hev

lemma CloneVM_tasksAwaited (env : CloneEnv) (config : CloneConfig) :
    tasksAwaited (CloneVM env config).2 := by
  unfold CloneVM
  split
  · intro e he t ht
    simp at he
    subst he
    simp [Event.taskOf] at ht
  · split
    · intro e he t ht
      simp at he
      rcases he with he | he <;> (subst he; simp [Event.taskOf] at ht)
    · split
      · intro e he t ht
        simp at he
        rcases he with he | he | he <;> (subst he; simp [Event.taskOf] at ht)
      · apply cloneDatastore_tasksAwaited
        intro e he
        simp at he
        rcases he with he | he | he <;> (subst he; rfl)

lemma DestroyVM_tasksAwaited (env : VMEnv) : tasksAwaited (DestroyVM env).2 := by
  unfold DestroyVM
  split
  · intro e he t ht
    simp at he
  · intro e he t ht
    simp at he
    rcases he with he | he
    · subst he
      simp [Event.taskOf] at ht
      subst ht
      simp
    · subst he
      simp [Event.taskOf] at ht

lemma ConfigureVM_tasksAwaited (env : VMEnv) (config : HardwareConfig) :
    tasksAwaited (ConfigureVM env config).2 := by
  unfold ConfigureVM
  split
  · intro e he t ht
    simp at he
  · intro e he t ht
    simp at he
    rcases he with he | he
    · subst he
      simp [Event.taskOf] at ht
      subst ht
      simp
    · subst he
      simp [Event.taskOf] at ht

lemma PowerOn_tasksAwaited (env : VMEnv) : tasksAwaited (PowerOn env).2 := by
  unfold PowerOn
  split
  · intro e he t ht
    simp at he
  · intro e he t ht
    simp at he
    rcases he with he | he
    · subst he
      simp [Event.taskOf] at ht
      subst ht
      simp
    · subst he
      simp [Event.taskOf] at ht

lemma PowerOff_tasksAwaited (env : VMEnv) : tasksAwaited (PowerOff env).2 := by
  unfold PowerOff
  split
  · intro e he t ht
    simp at he
    subst he
    simp [Event.taskOf] at ht
  · split
    · intro e he t ht
      simp at he
      subst he
      simp [Event.taskOf] at ht
    · split
      · intro e he t ht
        simp at he
        subst he
        simp [Event.taskOf] at ht
      · intro e he t ht
        simp at he
        rcases he with he | he | he
        · subst he
          simp [Event.taskOf] at ht
        · subst he
          simp [Event.taskOf] at ht
          subst ht
          simp
        · subst he
          simp [Event.taskOf] at ht

lemma CreateSnapshot_tasksAwaited (env : VMEnv) : tasksAwaited (CreateSnapshot env).2 := by
  unfold CreateSnapshot
  split
  · intro e he t ht
    simp at he
  · intro e he t ht
    simp at he
    rcases he with he | he
    · subst he
      simp [Event.taskOf] at ht
      subst ht
      simp
    · subst he
      simp [Event.taskOf] at ht

/-- C7: each of the task-submitting operations — `CloneVM`, `DestroyVM`,
`ConfigureVM`, `PowerOn`, `PowerOff` (on a running machine), and
`CreateSnapshot` — awaits every task it submitted before returning: its
trace never contains a submitted task without a matching await. -/
theorem all_operations_await_their_tasks (cenv : CloneEnv) (ccfg : CloneConfig)
    (venv : VMEnv) (hcfg : HardwareConfig) :
    tasksAwaited (CloneVM cenv ccfg).2 ∧ tasksAwaited (DestroyVM venv).2 ∧
    tasksAwaited (ConfigureVM venv hcfg).2 ∧ tasksAwaited (PowerOn venv).2 ∧
    tasksAwaited (PowerOff venv).2 ∧ tasksAwaited (CreateSnapshot venv).2 :=
  ⟨CloneVM_tasksAwaited cenv ccfg, DestroyVM_tasksAwaited venv,
   ConfigureVM_tasksAwaited venv hcfg, PowerOn_tasksAwaited venv,
   PowerOff_tasksAwaited venv, CreateSnapshot_tasksAwaited venv⟩

/-- Witness for C7 at the concrete sample environments. -/
theorem all_operations_await_their_tasks_witness :
    tasksAwaited (CloneVM sampleCloneEnv sampleCloneConfig).2 ∧
    tasksAwaited (DestroyVM sampleVMEnv).2 ∧
    tasksAwaited (ConfigureVM sampleVMEnv sampleHardwareConfig).2 ∧
    tasksAwaited (PowerOn sampleVMEnv).2 ∧
    tasksAwaited (PowerOff sampleVMEnv).2 ∧
    tasksAwaited (CreateSnapshot sampleVMEnv).2 :=
  all_operations_await_their_tasks sampleCloneEnv sampleCloneConfig sampleVMEnv
    sampleHardwareConfig

/-- Like `sampleVMEnv`, but the machine is already powered off. -/
def sampleOffVMEnv : VMEnv :=
  { sampleVMEnv with powerState := .ok PowerState.poweredOff }

/-- A default-everything clone configuration (no folder, host, pool,
datastore; full clone). -/
def sampleDefaultPoolConfig : CloneConfig where
  Template := "tpl1"
  VMName := "vm1"
  Folder := ""
  Host := ""
  ResourcePool := ""
  Datastore := ""
  LinkedClone := false

/-- The clone specification submitted by `CloneVM sampleCloneEnv
sampleCloneConfig`. -/
def sampleSubmittedSpec : VirtualMachineCloneSpec :=
  { Location := { Pool := some ⟨"pool-1"⟩
                  Datastore := none
                  DiskMoveType := "createNewChildDiskBacking" }
    PowerOn := false
    Snapshot := some ⟨"snapshot-2"⟩ }

/-- C1: with linked-clone requested and a template whose snapshot
metadata is absent, `CloneVM` returns the "template has no snapshots"
error and its trace contains no submitted task: it fails before any clone
task is submitted, so no remote mutation occurs. -/
theorem CloneVM_no_snapshot_fails (env : CloneEnv) (config : CloneConfig)
    (tpl folder pool : MoRef)
    (hlc : config.LinkedClone = true)
    (h1 : env.findVM config.Template = .ok tpl)
    (h2 : env.findFolderOrDefault (folderLookupPath env.dcName config) = .ok folder)
    (h3 : env.findPoolOrDefault (poolLookupPath env.dcName config) = .ok pool)
    (h4 : config.Datastore = "" ∨ ∃ ds, env.findDatastore config.Datastore = .ok ds)
    (h5 : env.snapshotProps tpl = .ok none) :
    (CloneVM env config).1 = .error noSnapshotsMsg ∧
      submittedTasks (CloneVM env config).2 = [] := by
  unfold CloneVM
  simp only [h1, h2, h3]
  unfold cloneDatastore
  by_cases hds : config.Datastore = ""
  · rw [if_neg (by simp [hds])]
    unfold cloneLinked
    rw [if_pos hlc]
    simp only [h5]
    exact ⟨by simp, by simp [submittedTasks, Event.taskOf]⟩
  · rcases h4 with h4 | ⟨ds, h4⟩
    · exact absurd h4 hds
    · rw [if_pos hds]
      simp only [h4]
      unfold cloneLinked
      rw [if_pos hlc]
      simp only [h5]
      exact ⟨by simp, by simp [submittedTasks, Event.taskOf]⟩

/-- Witness for C1 at a concrete environment whose template has no
snapshots. -/
theorem CloneVM_no_snapshot_fails_witness :
    (CloneVM sampleNoSnapEnv sampleCloneConfig).1 = .error noSnapshotsMsg ∧
      submittedTasks (CloneVM sampleNoSnapEnv sampleCloneConfig).2 = [] :=
  CloneVM_no_snapshot_fails sampleNoSnapEnv sampleCloneConfig
    ⟨"vm-template"⟩ ⟨"folder-1"⟩ ⟨"pool-1"⟩ rfl rfl rfl rfl (Or.inl rfl) rfl

/-- C3: with linked-clone requested and a template whose snapshot
metadata is present, any clone specification `CloneVM` submits has the
disk-move policy set to `createNewChildDiskBacking` and the base snapshot
set to the template's current snapshot. -/
theorem CloneVM_linked_clone_snapshot (env : CloneEnv) (config : CloneConfig)
    (tpl folder pool : MoRef) (info : VirtualMachineSnapshotInfo)
    (hlc : config.LinkedClone = true)
    (h1 : env.findVM config.Template = .ok tpl)
    (h2 : env.findFolderOrDefault (folderLookupPath env.dcName config) = .ok folder)
    (h3 : env.findPoolOrDefault (poolLookupPath env.dcName config) = .ok pool)
    (h4 : config.Datastore = "" ∨ ∃ ds, env.findDatastore config.Datastore = .ok ds)
    (h5 : env.snapshotProps tpl = .ok (some info)) :
    ∀ nm spec tk, Event.submitClone nm spec tk ∈ (CloneVM env config).2 →
      spec.Location.DiskMoveType = "createNewChildDiskBacking" ∧
      spec.Snapshot = info.CurrentSnapshot := by
  intro nm spec tk hmem
  unfold CloneVM at hmem
  simp only [h1, h2, h3] at hmem
  unfold cloneDatastore at hmem
  by_cases hds : config.Datastore = ""
  · rw [if_neg (by simp [hds])] at hmem
    have h6 := cloneLinked_submitClone_mem env config tpl folder _ _ info hlc h5 nm spec tk hmem
    rcases h6 with h6 | ⟨hnm, hspec⟩
    · simp at h6
    · subst hspec
      exact ⟨rfl, rfl⟩
  · rcases h4 with h4 | ⟨ds, h4⟩
    · exact absurd h4 hds
    · rw [if_pos hds] at hmem
      simp only [h4] at hmem
      have h6 := cloneLinked_submitClone_mem env config tpl folder _ _ info hlc h5 nm spec tk hmem
      rcases h6 with h6 | ⟨hnm, hspec⟩
      · simp at h6
      · subst hspec
        exact ⟨rfl, rfl⟩

/-- Witness for C3: the specification actually submitted for the sample
template (snapshot chain S1 → S2, S2 current) uses the child-disk-backing
policy and S2. -/
theorem CloneVM_linked_clone_snapshot_witness :
    sampleSubmittedSpec.Location.DiskMoveType = "createNewChildDiskBacking" ∧
    sampleSubmittedSpec.Snapshot = sampleSnapInfo.CurrentSnapshot :=
  CloneVM_linked_clone_snapshot sampleCloneEnv sampleCloneConfig
    ⟨"vm-template"⟩ ⟨"folder-1"⟩ ⟨"pool-1"⟩ sampleSnapInfo rfl rfl rfl rfl (Or.inl rfl) rfl
    "vm1" sampleSubmittedSpec ⟨"task-1"⟩ (by decide)

/-- C5: `CloneVM` performs exactly one resource-pool resolution, at the
path `/<datacenter>/host/<host>/Resources/<pool>` when the pool name is
non-empty and at `""` (the provider's default pool for the datacenter)
when it is empty. -/
theorem CloneVM_pool_resolution (env : CloneEnv) (config : CloneConfig)
    (tpl folder : MoRef)
    (h1 : env.findVM config.Template = .ok tpl)
    (h2 : env.findFolderOrDefault (folderLookupPath env.dcName config) = .ok folder) :
    Event.findPool (poolLookupPath env.dcName config) ∈ (CloneVM env config).2 ∧
    (∀ p, Event.findPool p ∈ (CloneVM env config).2 →
      p = poolLookupPath env.dcName config) ∧
    (config.ResourcePool ≠ "" → poolLookupPath env.dcName config =
      "/" ++ env.dcName ++ "/host/" ++ config.Host ++ "/Resources/" ++ config.ResourcePool) ∧
    (config.ResourcePool = "" → poolLookupPath env.dcName config = "") := by
  refine ⟨?_, ?_, ?_, ?_⟩
  · unfold CloneVM
    simp only [h1, h2]
    split
    · simp
    · obtain ⟨tail, htail, hp⟩ := cloneDatastore_trace_shape env config tpl folder _ _
      rw [htail]
      simp
  · intro p hp
    unfold CloneVM at hp
    simp only [h1, h2] at hp
    split at hp
    · simpa using hp
    · obtain ⟨tail, htail, hptail⟩ := cloneDatastore_trace_shape env config tpl folder _ _
      rw [htail] at hp
      simp at hp
      rcases hp with hp | hp
      · exact hp
      · exact absurd hp (hptail p)
  · intro h
    unfold poolLookupPath
    rw [if_pos h]
  · intro h
    simp [poolLookupPath, h]

/-- Witness for C5: at the sample environment, both with a named pool
(composed path) and with all-default parameters (path `""`). -/
theorem CloneVM_pool_resolution_witness :
    (Event.findPool (poolLookupPath sampleCloneEnv.dcName sampleCloneConfig) ∈
      (CloneVM sampleCloneEnv sampleCloneConfig).2 ∧
     poolLookupPath sampleCloneEnv.dcName sampleCloneConfig = "/dc1/host/esx1/Resources/pool") ∧
    poolLookupPath sampleCloneEnv.dcName sampleDefaultPoolConfig = "" := by
  refine ⟨⟨?_, ?_⟩, ?_⟩
  · exact (CloneVM_pool_resolution sampleCloneEnv sampleCloneConfig
      ⟨"vm-template"⟩ ⟨"folder-1"⟩ rfl rfl).1
  · exact (CloneVM_pool_resolution sampleCloneEnv sampleCloneConfig
      ⟨"vm-template"⟩ ⟨"folder-1"⟩ rfl rfl).2.2.1 (by decide)
  · exact (CloneVM_pool_resolution sampleCloneEnv sampleDefaultPoolConfig
      ⟨"vm-template"⟩ ⟨"folder-1"⟩ rfl rfl).2.2.2 rfl

/-- C6: every clone specification `CloneVM` submits has `PowerOn = false`,
for every environment and configuration: the clone always starts powered
off. -/
theorem CloneVM_clone_never_powered_on (env : CloneEnv) (config : CloneConfig)
    (nm : String) (spec : VirtualMachineCloneSpec) (tk : TaskRef)
    (h : Event.submitClone nm spec tk ∈ (CloneVM env config).2) :
    spec.PowerOn = false := by
  unfold CloneVM at h
  split at h
  · simp at h
  · split at h
    · simp at h
    · split at h
      · simp at h
      · have h2 := cloneDatastore_submitClone_powerOn env config _ _ _ _ nm spec tk h
        rcases h2 with h2 | h2
        · simp at h2
        · exact h2

/-- Witness for C6: the concretely submitted sample specification has
power-on disabled. -/
theorem CloneVM_clone_never_powered_on_witness :
    sampleSubmittedSpec.PowerOn = false :=
  CloneVM_clone_never_powered_on sampleCloneEnv sampleCloneConfig "vm1" sampleSubmittedSpec
    ⟨"task-1"⟩ (by decide)

/-- C4: `PowerOff` on a machine reported `poweredOff` returns success
with zero tasks submitted; on a machine in any other power state it
submits exactly one power-off task and awaits it. -/
theorem PowerOff_idempotent (env : VMEnv) :
    (env.powerState = .ok PowerState.poweredOff →
      (PowerOff env).1 = .ok () ∧ submittedTasks (PowerOff env).2 = [])
    ∧ (∀ s tk, env.powerState = .ok s → s ≠ PowerState.poweredOff →
      env.powerOffTask = .ok tk →
      (PowerOff env).2 =
        [Event.queryPowerState, Event.submitPowerOff tk, Event.awaitTask tk] ∧
      submittedTasks (PowerOff env).2 = [tk] ∧
      (PowerOff env).1 = env.awaitTask tk) := by
  constructor
  · intro h
    unfold PowerOff
    simp only [h]
    exact ⟨by simp, by simp [submittedTasks, Event.taskOf]⟩
  · intro s tk hs hneq htk
    unfold PowerOff
    simp only [hs]
    rw [if_neg hneq]
    simp only [htk]
    exact ⟨by simp, by simp [submittedTasks, Event.taskOf], by simp⟩

/-- Witness for C4: a powered-off machine yields success with no task; a
powered-on machine submits exactly the one power-off task. -/
theorem PowerOff_idempotent_witness :
    ((PowerOff sampleOffVMEnv).1 = .ok () ∧
      submittedTasks (PowerOff sampleOffVMEnv).2 = []) ∧
    submittedTasks (PowerOff sampleVMEnv).2 = [⟨"task-poweroff"⟩] :=
  ⟨(PowerOff_idempotent sampleOffVMEnv).1 rfl,
   ((PowerOff_idempotent sampleVMEnv).2 PowerState.poweredOn ⟨"task-poweroff"⟩
      rfl (by decide) rfl).2.1⟩

/-- C8: `ConfigureVM` submits exactly one reconfiguration task, whose
specification carries all six hardware parameters (CPU count, RAM MB,
CPU reservation, CPU limit, RAM reservation, lock-RAM-to-max flag) in
one combined request. -/
theorem ConfigureVM_single_combined_request (env : VMEnv) (config : HardwareConfig)
    (tk : TaskRef) (h : env.reconfigureTask (configSpecOf config) = .ok tk) :
    (ConfigureVM env config).2 =
      [Event.submitReconfigure (configSpecOf config) tk, Event.awaitTask tk] ∧
    submittedTasks (ConfigureVM env config).2 = [tk] ∧
    (configSpecOf config).NumCPUs = config.CPUs ∧
    (configSpecOf config).MemoryMB = config.RAM ∧
    (configSpecOf config).CpuAllocation =
      some { Reservation := config.CPUReservation, Limit := config.CPULimit } ∧
    (configSpecOf config).MemoryAllocation =
      some { Reservation := config.RAMReservation, Limit := 0 } ∧
    (configSpecOf config).MemoryReservationLockedToMax = some config.RAMReserveAll := by
  unfold ConfigureVM
  simp only [h]
  simp [submittedTasks, Event.taskOf, configSpecOf]

/-- Witness for C8 at the sample hardware configuration. -/
theorem ConfigureVM_single_combined_request_witness :
    submittedTasks (ConfigureVM sampleVMEnv sampleHardwareConfig).2 = [⟨"task-reconfigure"⟩] :=
  (ConfigureVM_single_combined_request sampleVMEnv sampleHardwareConfig
    ⟨"task-reconfigure"⟩ rfl).2.1
